import Mathlib

/-!
Verification of the schedule CRUD backend (`src/schedule-backend/server.js`).

The server exposes four routes over one MySQL table
(`SMP_USER_MASTER_SCHEDULES`): list all, insert, update number-of-days by
id, and delete by id.  We embed the route handlers as pure functions over
an explicit store (the table contents plus the auto-increment counter) and
over a model of the JSON/JavaScript values that can appear in a request
body.

Modelling decisions, each tied to the source:
* Request-body fields are JSON values, or `undefined` when the key is
  absent (object destructuring of `req.body`).  JSON numbers in this
  development are restricted to integers, which covers every value the
  routes and the data model use.
* `NUMBER_OF_DAYS || null` / `STATUS || null` in the insert is JavaScript
  truthiness: `undefined`, `null`, `0`, the empty string and `false` are
  replaced by `null`.
* The update validation `isNaN(x) || x >= 7` uses JavaScript numeric
  coercion: `isNaN` applies `Number(...)`, and `>= 7` compares the numeric
  coercion of the operand with 7, yielding `false` when the coercion is
  NaN.  String-to-number coercion is modelled for integer decimal
  literals (optionally signed, surrounded by whitespace); the empty or
  all-whitespace string coerces to 0.
* The mysql2 driver rejects a bind-parameter list containing `undefined`
  with an error, before any SQL reaches the server; this is the only
  storage failure modelled (connectivity failures are environmental).
* `result.affectedRows` is modelled as the number of rows matched by the
  statement's WHERE clause, and `result.insertId` as the auto-increment
  value assigned to the inserted row.  Row order of `SELECT *` is
  insertion order.
-/

/-- A JavaScript value as it can appear in a parsed JSON request body,
plus `vundefined` for a key that is absent from the body.  Numbers are
restricted to integers. -/
inductive JSVal where
  | vundefined : JSVal
  | vnull : JSVal
  | vnum : Int → JSVal
  | vstr : String → JSVal
  | vbool : Bool → JSVal
deriving DecidableEq, Repr

namespace JSVal

/-- Leading and trailing whitespace removed from a character list. -/
def trimChars (cs : List Char) : List Char :=
  ((cs.dropWhile Char.isWhitespace).reverse.dropWhile Char.isWhitespace).reverse

/-- The value of a nonempty all-digit character list; `none` otherwise. -/
def digitsVal : List Char → Option Nat
  | [] => none
  | cs =>
    if cs.all (fun c => c.isDigit) then
      some (cs.foldl (fun a c => a * 10 + (c.toNat - 48)) 0)
    else none

/-- JavaScript `Number(s)` for a string, restricted to integer decimal
literals: leading/trailing whitespace is ignored, the empty (or
all-whitespace) string is 0, an optional single sign is allowed, and any
other non-digit character yields NaN (`none`). -/
def strToNumber (s : String) : Option Int :=
  match trimChars s.data with
  | [] => some 0
  | '-' :: rest => (digitsVal rest).map (fun n => -(n : Int))
  | '+' :: rest => (digitsVal rest).map (fun n => (n : Int))
  | cs => (digitsVal cs).map (fun n => (n : Int))

/-- JavaScript `Number(v)`: `none` models NaN. -/
def toNumber : JSVal → Option Int
  | vundefined => none
  | vnull => some 0
  | vnum n => some n
  | vstr s => strToNumber s
  | vbool b => some (if b then 1 else 0)

/-- JavaScript `v >= m` where `m` is a number: both operands are
numerically coerced and a NaN operand makes the comparison false. -/
def geNum (v : JSVal) (m : Int) : Bool :=
  match toNumber v with
  | none => false
  | some n => m ≤ n

/-- JavaScript truthiness (restricted to the values of `JSVal`):
`undefined`, `null`, `0`, `""` and `false` are falsy. -/
def falsy : JSVal → Bool
  | vundefined => true
  | vnull => true
  | vnum n => n == 0
  | vstr s => s == ""
  | vbool b => !b

/-- The `v || null` idiom from the insert handler: a falsy value is
replaced by `null`. -/
def orNull (v : JSVal) : JSVal :=
  if falsy v then vnull else v

end JSVal

/-- One row of `SMP_USER_MASTER_SCHEDULES`.  `USER_SCHD_ID` is the
auto-increment primary key; the remaining columns hold whatever value the
insert or update statement bound for them. -/
structure ScheduleRecord where
  USER_SCHD_ID : Nat
  SCHEDULER_TYPE : JSVal
  SCHEDULER_DETAILS : JSVal
  NUMBER_OF_DAYS : JSVal
  STATUS : JSVal
  VENDOR_ID : JSVal
  INSERT_ID : Int
deriving DecidableEq, Repr

/-- The database state: the table rows in storage order (insertion order)
and the next auto-increment id. -/
structure Store where
  rows : List ScheduleRecord
  nextId : Nat
deriving DecidableEq, Repr

/-- The empty database, with the auto-increment counter at its MySQL
starting value. -/
def store0 : Store := ⟨[], 1⟩

/-- An HTTP response as produced by the four handlers: the constructor
fixes the status code and the shape of the JSON body. -/
inductive HttpResponse where
  | listOk : List ScheduleRecord → HttpResponse
  | created : String → Nat → HttpResponse
  | okMsg : String → HttpResponse
  | clientError : String → HttpResponse
  | notFound : String → HttpResponse
  | serverError : String → HttpResponse
deriving DecidableEq, Repr

/-- The HTTP status code of a response. -/
def HttpResponse.status : HttpResponse → Nat
  | listOk _ => 200
  | created _ _ => 201
  | okMsg _ => 200
  | clientError _ => 400
  | notFound _ => 404
  | serverError _ => 500

/-- A parsed JSON request body, restricted to the five keys any handler
ever reads; a key absent from the request is `vundefined`, exactly as
destructuring `req.body` yields. -/
structure RequestBody where
  SCHEDULER_TYPE : JSVal
  SCHEDULER_DETAILS : JSVal
  NUMBER_OF_DAYS : JSVal
  STATUS : JSVal
  VENDOR_ID : JSVal
deriving DecidableEq, Repr

/-- The mysql2 driver refuses to execute a statement whose bind
parameters contain `undefined`; the error never reaches the SQL server. -/
def bindParamsOk (ps : List JSVal) : Bool :=
  ps.all (fun v => v ≠ JSVal.vundefined)

/-- The message of the mysql2 error raised for an `undefined` bind
parameter. -/
def bindErrorMessage : String :=
  "Bind parameters must not contain undefined. To pass SQL NULL specify JS null"

/-- The bind-parameter list of the insert statement, in column order
`(SCHEDULER_TYPE, SCHEDULER_DETAILS, NUMBER_OF_DAYS, STATUS, VENDOR_ID,
INSERT_ID)`: days and status go through `|| null` and the insertion
marker is the constant 1. -/
def insertParams (b : RequestBody) : List JSVal :=
  [b.SCHEDULER_TYPE, b.SCHEDULER_DETAILS, b.NUMBER_OF_DAYS.orNull,
   b.STATUS.orNull, b.VENDOR_ID, JSVal.vnum 1]

/-- The row the insert statement stores for body `b` when the assigned
auto-increment id is `n`. -/
def insertedRecord (n : Nat) (b : RequestBody) : ScheduleRecord :=
  ⟨n, b.SCHEDULER_TYPE, b.SCHEDULER_DETAILS, b.NUMBER_OF_DAYS.orNull,
   b.STATUS.orNull, b.VENDOR_ID, 1⟩

/-- `GET /api/schedules`: `SELECT *` returns every row in storage order
and leaves the store unchanged. -/
def getSchedules (s : Store) : HttpResponse × Store :=
  (HttpResponse.listOk s.rows, s)

/-- `POST /api/schedules`: runs the parameterized insert; the driver
rejects an `undefined` bind parameter with a 500 that echoes the error
message, otherwise the row is appended, the auto-increment counter
advances, and a 201 carries the new id. -/
def postSchedule (s : Store) (b : RequestBody) : HttpResponse × Store :=
  if bindParamsOk (insertParams b) then
    (HttpResponse.created "Schedule added successfully!" s.nextId,
     ⟨s.rows ++ [insertedRecord s.nextId b], s.nextId + 1⟩)
  else
    (HttpResponse.serverError ("Error adding schedule: " ++ bindErrorMessage), s)

/-- The update handler's validation guard, verbatim from the source:
`NUMBER_OF_DAYS === undefined || NUMBER_OF_DAYS === null ||
isNaN(NUMBER_OF_DAYS) || NUMBER_OF_DAYS >= 7`. -/
def rejectDays (v : JSVal) : Bool :=
  v == JSVal.vundefined || v == JSVal.vnull || (v.toNumber).isNone || v.geNum 7

/-- `PUT /api/schedules/:id`: validates `NUMBER_OF_DAYS` (400 on
failure, before any SQL), then runs
`UPDATE ... SET NUMBER_OF_DAYS = ? WHERE USER_SCHD_ID = ?`;
`affectedRows = 0` yields a 404. -/
def putSchedule (s : Store) (id : Nat) (b : RequestBody) : HttpResponse × Store :=
  if rejectDays b.NUMBER_OF_DAYS then
    (HttpResponse.clientError "Number of Days must be a valid number and less than 7.", s)
  else if (s.rows.filter (fun r => r.USER_SCHD_ID == id)).length = 0 then
    (HttpResponse.notFound "Schedule not found", s)
  else
    (HttpResponse.okMsg "Schedule updated successfully!",
     ⟨s.rows.map (fun r =>
        if r.USER_SCHD_ID == id then { r with NUMBER_OF_DAYS := b.NUMBER_OF_DAYS } else r),
      s.nextId⟩)

/-- `DELETE /api/schedules/:id`: runs
`DELETE FROM ... WHERE USER_SCHD_ID = ?`; `affectedRows = 0` yields a
404, otherwise the matching row is removed. -/
def deleteSchedule (s : Store) (id : Nat) : HttpResponse × Store :=
  if (s.rows.filter (fun r => r.USER_SCHD_ID == id)).length = 0 then
    (HttpResponse.notFound "Schedule not found", s)
  else
    (HttpResponse.okMsg "Schedule deleted successfully!",
     ⟨s.rows.filter (fun r => !(r.USER_SCHD_ID == id)), s.nextId⟩)

/-- A create or delete request, for reasoning about operation sequences. -/
inductive Op where
  | create : RequestBody → Op
  | del : Nat → Op
deriving DecidableEq, Repr

/-- The store after one operation (the handler's response is discarded). -/
def applyOp (s : Store) : Op → Store
  | Op.create b => (postSchedule s b).2
  | Op.del i => (deleteSchedule s i).2

/-- The store after a sequence of operations. -/
def runOps (s : Store) (ops : List Op) : Store :=
  ops.foldl applyOp s

/-- Whether the remaining trace contains a delete of id `i`. -/
def deletedLater (i : Nat) : List Op → Bool
  | [] => false
  | Op.create _ :: rest => deletedLater i rest
  | Op.del j :: rest => i == j || deletedLater i rest

/-- Spec-side characterization of the listing, following the spec's words
"exactly the set of records previously created and not yet deleted":
walking the trace with auto-increment counter `n`, each accepted create
contributes its record unless some later operation deletes that id, in
creation order. -/
def createdNotDeleted : Nat → List Op → List ScheduleRecord
  | _, [] => []
  | n, Op.del _ :: rest => createdNotDeleted n rest
  | n, Op.create b :: rest =>
    if bindParamsOk (insertParams b) then
      (if deletedLater n rest then [] else [insertedRecord n b])
        ++ createdNotDeleted (n + 1) rest
    else
      createdNotDeleted n rest

/-- Store well-formedness: every stored id is below the auto-increment
counter (true of every store the server can reach). -/
def Store.wf (s : Store) : Prop :=
  ∀ r ∈ s.rows, r.USER_SCHD_ID < s.nextId

/-- A concrete create body (the example of spec section 8). -/
def sampleBody : RequestBody :=
  ⟨JSVal.vstr "daily", JSVal.vstr "d", JSVal.vnum 3, JSVal.vstr "active", JSVal.vnum 11⟩

/-- The store after creating `sampleBody` in the empty store: one record
with id 1. -/
def sampleStore : Store := (postSchedule store0 sampleBody).2

/-- `v || null` never yields `undefined`. -/
theorem JSVal.orNull_ne_undefined (v : JSVal) : v.orNull ≠ JSVal.vundefined := by
  cases v <;> simp [JSVal.orNull, JSVal.falsy] <;> split <;> simp

/-- The insert's bind parameters are all defined as soon as the three
required body fields are. -/
theorem bindParamsOk_of_required (b : RequestBody)
    (ht : b.SCHEDULER_TYPE ≠ JSVal.vundefined)
    (hd : b.SCHEDULER_DETAILS ≠ JSVal.vundefined)
    (hv : b.VENDOR_ID ≠ JSVal.vundefined) :
    bindParamsOk (insertParams b) = true := by
  simp [bindParamsOk, insertParams, ht, hd, hv,
    JSVal.orNull_ne_undefined b.NUMBER_OF_DAYS, JSVal.orNull_ne_undefined b.STATUS]

/-- C1: an update request whose `NUMBER_OF_DAYS` is missing, does not
coerce to a number, or coerces to a number ≥ 7 gets a 400 naming the
violated rule, and the store is returned unchanged (no SQL runs). -/
theorem update_rejects_invalid_days (s : Store) (i : Nat) (b : RequestBody)
    (h : b.NUMBER_OF_DAYS = JSVal.vundefined ∨
         (b.NUMBER_OF_DAYS).toNumber = none ∨
         ∃ n : Int, (b.NUMBER_OF_DAYS).toNumber = some n ∧ 7 ≤ n) :
    putSchedule s i b =
      (HttpResponse.clientError "Number of Days must be a valid number and less than 7.", s) := by
  have hrej : rejectDays b.NUMBER_OF_DAYS = true := by
    rcases h with h | h | ⟨n, hn, h7⟩
    · simp [rejectDays, h]
    · simp [rejectDays, h]
    · simp [rejectDays, JSVal.geNum, hn, h7]
  simp [putSchedule, hrej]

/-- Witness for C1 at `NUMBER_OF_DAYS = 7`. -/
theorem update_rejects_invalid_days_witness :
    putSchedule sampleStore 1
        ⟨JSVal.vundefined, JSVal.vundefined, JSVal.vnum 7, JSVal.vundefined, JSVal.vundefined⟩ =
      (HttpResponse.clientError "Number of Days must be a valid number and less than 7.",
       sampleStore) :=
  update_rejects_invalid_days sampleStore 1 _ (Or.inr (Or.inr ⟨7, rfl, by decide⟩))

/-- C2: a create whose three required fields are present succeeds even
when `NUMBER_OF_DAYS` or `STATUS` is missing: the row is inserted with
`null` for the missing field, the insertion marker 1 is recorded, and the
201 response carries the new row's id. -/
theorem create_accepts_missing_optional_fields (s : Store) (b : RequestBody)
    (ht : b.SCHEDULER_TYPE ≠ JSVal.vundefined)
    (hd : b.SCHEDULER_DETAILS ≠ JSVal.vundefined)
    (hv : b.VENDOR_ID ≠ JSVal.vundefined) :
    postSchedule s b =
      (HttpResponse.created "Schedule added successfully!" s.nextId,
       ⟨s.rows ++ [insertedRecord s.nextId b], s.nextId + 1⟩) ∧
    (b.NUMBER_OF_DAYS = JSVal.vundefined →
      (insertedRecord s.nextId b).NUMBER_OF_DAYS = JSVal.vnull) ∧
    (b.STATUS = JSVal.vundefined → (insertedRecord s.nextId b).STATUS = JSVal.vnull) ∧
    (insertedRecord s.nextId b).INSERT_ID = 1 ∧
    (insertedRecord s.nextId b).USER_SCHD_ID = s.nextId := by
  refine ⟨?_, ?_, ?_, rfl, rfl⟩
  · simp [postSchedule, bindParamsOk_of_required b ht hd hv]
  · intro h
    simp [insertedRecord, h, JSVal.orNull, JSVal.falsy]
  · intro h
    simp [insertedRecord, h, JSVal.orNull, JSVal.falsy]

/-- Witness for C2: creating with `NUMBER_OF_DAYS` and `STATUS` absent. -/
theorem create_accepts_missing_optional_fields_witness :
    postSchedule store0
        ⟨JSVal.vstr "daily", JSVal.vstr "d", JSVal.vundefined, JSVal.vundefined, JSVal.vnum 11⟩ =
      (HttpResponse.created "Schedule added successfully!" store0.nextId,
       ⟨store0.rows ++
          [insertedRecord store0.nextId
            ⟨JSVal.vstr "daily", JSVal.vstr "d", JSVal.vundefined, JSVal.vundefined,
             JSVal.vnum 11⟩],
        store0.nextId + 1⟩) ∧
    (insertedRecord store0.nextId
      ⟨JSVal.vstr "daily", JSVal.vstr "d", JSVal.vundefined, JSVal.vundefined,
       JSVal.vnum 11⟩).NUMBER_OF_DAYS = JSVal.vnull ∧
    (insertedRecord store0.nextId
      ⟨JSVal.vstr "daily", JSVal.vstr "d", JSVal.vundefined, JSVal.vundefined,
       JSVal.vnum 11⟩).STATUS = JSVal.vnull := by
  have h := create_accepts_missing_optional_fields store0
    ⟨JSVal.vstr "daily", JSVal.vstr "d", JSVal.vundefined, JSVal.vundefined, JSVal.vnum 11⟩
    (by decide) (by decide) (by decide)
  exact ⟨h.1, h.2.1 rfl, h.2.2.1 rfl⟩

/-- C4: the create handler performs no validation on `NUMBER_OF_DAYS`:
a create with days ≥ 7 (and the required fields present) is accepted and
inserted, storing the supplied days value unchanged. -/
theorem create_skips_days_validation (s : Store) (b : RequestBody) (n : Int)
    (ht : b.SCHEDULER_TYPE ≠ JSVal.vundefined)
    (hd : b.SCHEDULER_DETAILS ≠ JSVal.vundefined)
    (hv : b.VENDOR_ID ≠ JSVal.vundefined)
    (hn : b.NUMBER_OF_DAYS = JSVal.vnum n) (h7 : 7 ≤ n) :
    postSchedule s b =
      (HttpResponse.created "Schedule added successfully!" s.nextId,
       ⟨s.rows ++ [insertedRecord s.nextId b], s.nextId + 1⟩) ∧
    (insertedRecord s.nextId b).NUMBER_OF_DAYS = JSVal.vnum n := by
  constructor
  · simp [postSchedule, bindParamsOk_of_required b ht hd hv]
  · have hnz : n ≠ 0 := by omega
    simp [insertedRecord, hn, JSVal.orNull, JSVal.falsy, hnz]

/-- Witness for C4 at days 7 and at days 10. -/
theorem create_skips_days_validation_witness :
    postSchedule store0
        ⟨JSVal.vstr "daily", JSVal.vstr "d", JSVal.vnum 7, JSVal.vstr "active", JSVal.vnum 11⟩ =
      (HttpResponse.created "Schedule added successfully!" store0.nextId,
       ⟨store0.rows ++
          [insertedRecord store0.nextId
            ⟨JSVal.vstr "daily", JSVal.vstr "d", JSVal.vnum 7, JSVal.vstr "active",
             JSVal.vnum 11⟩],
        store0.nextId + 1⟩) ∧
    (insertedRecord store0.nextId
      ⟨JSVal.vstr "daily", JSVal.vstr "d", JSVal.vnum 7, JSVal.vstr "active",
       JSVal.vnum 11⟩).NUMBER_OF_DAYS = JSVal.vnum 7 :=
  create_skips_days_validation store0
    ⟨JSVal.vstr "daily", JSVal.vstr "d", JSVal.vnum 7, JSVal.vstr "active", JSVal.vnum 11⟩ 7
    (by decide) (by decide) (by decide) rfl (by decide)

/-- C8: the `|| null` coercion in the insert applies to every falsy value,
not only absent fields: a present `NUMBER_OF_DAYS` or `STATUS` equal to
`0`, `""` or `false` is stored as `null`. -/
theorem create_nullifies_falsy_optional_fields (s : Store) (b : RequestBody)
    (ht : b.SCHEDULER_TYPE ≠ JSVal.vundefined)
    (hd : b.SCHEDULER_DETAILS ≠ JSVal.vundefined)
    (hv : b.VENDOR_ID ≠ JSVal.vundefined) :
    (postSchedule s b).2.rows = s.rows ++ [insertedRecord s.nextId b] ∧
    ((b.NUMBER_OF_DAYS = JSVal.vnum 0 ∨ b.NUMBER_OF_DAYS = JSVal.vstr "" ∨
        b.NUMBER_OF_DAYS = JSVal.vbool false) →
      (insertedRecord s.nextId b).NUMBER_OF_DAYS = JSVal.vnull) ∧
    ((b.STATUS = JSVal.vnum 0 ∨ b.STATUS = JSVal.vstr "" ∨ b.STATUS = JSVal.vbool false) →
      (insertedRecord s.nextId b).STATUS = JSVal.vnull) := by
  refine ⟨?_, ?_, ?_⟩
  · simp [postSchedule, bindParamsOk_of_required b ht hd hv]
  · rintro (h | h | h) <;> simp [insertedRecord, h, JSVal.orNull, JSVal.falsy]
  · rintro (h | h | h) <;> simp [insertedRecord, h, JSVal.orNull, JSVal.falsy]

/-- Witness for C8: days `0` and status `""`, both present and falsy,
are stored as `null`. -/
theorem create_nullifies_falsy_optional_fields_witness :
    (postSchedule store0
       ⟨JSVal.vstr "daily", JSVal.vstr "d", JSVal.vnum 0, JSVal.vstr "", JSVal.vnum 11⟩).2.rows =
      store0.rows ++
        [insertedRecord store0.nextId
          ⟨JSVal.vstr "daily", JSVal.vstr "d", JSVal.vnum 0, JSVal.vstr "", JSVal.vnum 11⟩] ∧
    (insertedRecord store0.nextId
      ⟨JSVal.vstr "daily", JSVal.vstr "d", JSVal.vnum 0, JSVal.vstr "",
       JSVal.vnum 11⟩).NUMBER_OF_DAYS = JSVal.vnull ∧
    (insertedRecord store0.nextId
      ⟨JSVal.vstr "daily", JSVal.vstr "d", JSVal.vnum 0, JSVal.vstr "",
       JSVal.vnum 11⟩).STATUS = JSVal.vnull := by
  have h := create_nullifies_falsy_optional_fields store0
    ⟨JSVal.vstr "daily", JSVal.vstr "d", JSVal.vnum 0, JSVal.vstr "", JSVal.vnum 11⟩
    (by decide) (by decide) (by decide)
  exact ⟨h.1, h.2.1 (Or.inl rfl), h.2.2 (Or.inr (Or.inl rfl))⟩

/-- C10: the create handler never answers 400; a missing required field
reaches the driver as `undefined`, and the resulting driver error is
returned as a 500 echoing the underlying message, with the store
unchanged. -/
theorem create_missing_required_yields_500 (s : Store) (b : RequestBody) :
    (postSchedule s b).1.status ≠ 400 ∧
    ((b.SCHEDULER_TYPE = JSVal.vundefined ∨ b.SCHEDULER_DETAILS = JSVal.vundefined ∨
        b.VENDOR_ID = JSVal.vundefined) →
      postSchedule s b =
        (HttpResponse.serverError ("Error adding schedule: " ++ bindErrorMessage), s)) := by
  constructor
  · unfold postSchedule
    split <;> simp [HttpResponse.status]
  · intro h
    have hbad : bindParamsOk (insertParams b) = false := by
      rcases h with h | h | h <;> simp [bindParamsOk, insertParams, h]
    simp [postSchedule, hbad]

/-- Witness for C10: a create missing `VENDOR_ID` yields the echoed 500. -/
theorem create_missing_required_yields_500_witness :
    (postSchedule store0
       ⟨JSVal.vstr "daily", JSVal.vstr "d", JSVal.vnum 3, JSVal.vstr "active",
        JSVal.vundefined⟩).1.status ≠ 400 ∧
    postSchedule store0
        ⟨JSVal.vstr "daily", JSVal.vstr "d", JSVal.vnum 3, JSVal.vstr "active",
         JSVal.vundefined⟩ =
      (HttpResponse.serverError ("Error adding schedule: " ++ bindErrorMessage), store0) := by
  have h := create_missing_required_yields_500 store0
    ⟨JSVal.vstr "daily", JSVal.vstr "d", JSVal.vnum 3, JSVal.vstr "active", JSVal.vundefined⟩
  exact ⟨h.1, h.2 (Or.inr (Or.inr rfl))⟩

/-- C5: a successful update rewrites only `NUMBER_OF_DAYS` of the rows
matching the target id, leaving every other field and every other row
untouched, whatever else the request body carries. -/
theorem update_modifies_only_target_days (s : Store) (i : Nat) (b : RequestBody)
    (h : (putSchedule s i b).1 = HttpResponse.okMsg "Schedule updated successfully!") :
    (putSchedule s i b).2 =
      ⟨s.rows.map (fun r =>
         if r.USER_SCHD_ID = i then { r with NUMBER_OF_DAYS := b.NUMBER_OF_DAYS } else r),
       s.nextId⟩ ∧
    (∀ r : ScheduleRecord, r.USER_SCHD_ID ≠ i →
      (if r.USER_SCHD_ID = i then { r with NUMBER_OF_DAYS := b.NUMBER_OF_DAYS } else r) = r) ∧
    (∀ r : ScheduleRecord,
      ({ r with NUMBER_OF_DAYS := b.NUMBER_OF_DAYS } : ScheduleRecord).USER_SCHD_ID =
          r.USER_SCHD_ID ∧
      ({ r with NUMBER_OF_DAYS := b.NUMBER_OF_DAYS } : ScheduleRecord).SCHEDULER_TYPE =
          r.SCHEDULER_TYPE ∧
      ({ r with NUMBER_OF_DAYS := b.NUMBER_OF_DAYS } : ScheduleRecord).SCHEDULER_DETAILS =
          r.SCHEDULER_DETAILS ∧
      ({ r with NUMBER_OF_DAYS := b.NUMBER_OF_DAYS } : ScheduleRecord).STATUS = r.STATUS ∧
      ({ r with NUMBER_OF_DAYS := b.NUMBER_OF_DAYS } : ScheduleRecord).VENDOR_ID =
          r.VENDOR_ID ∧
      ({ r with NUMBER_OF_DAYS := b.NUMBER_OF_DAYS } : ScheduleRecord).INSERT_ID =
          r.INSERT_ID) := by
  refine ⟨?_, fun r hr => by simp [hr], fun r => ⟨rfl, rfl, rfl, rfl, rfl, rfl⟩⟩
  unfold putSchedule at h ⊢
  by_cases hrej : rejectDays b.NUMBER_OF_DAYS = true
  · rw [if_pos hrej] at h
    exact absurd h (by simp)
  · rw [Bool.not_eq_true] at hrej
    rw [if_neg (by simp [hrej])] at h ⊢
    by_cases haff : (s.rows.filter (fun r => r.USER_SCHD_ID == i)).length = 0
    · rw [if_pos haff] at h
      exact absurd h (by simp)
    · rw [if_neg haff]
      simp only [beq_iff_eq]

/-- Witness for C5: updating sample record 1 to days 5. -/
theorem update_modifies_only_target_days_witness :
    (putSchedule sampleStore 1
       ⟨JSVal.vstr "weekly", JSVal.vstr "x", JSVal.vnum 5, JSVal.vstr "off",
        JSVal.vnum 99⟩).2 =
      ⟨sampleStore.rows.map (fun r =>
         if r.USER_SCHD_ID = 1 then { r with NUMBER_OF_DAYS := JSVal.vnum 5 } else r),
       sampleStore.nextId⟩ :=
  (update_modifies_only_target_days sampleStore 1
    ⟨JSVal.vstr "weekly", JSVal.vstr "x", JSVal.vnum 5, JSVal.vstr "off", JSVal.vnum 99⟩
    (by decide)).1

/-- C6: an update that passes validation but targets an id no stored row
carries answers 404 — a response distinct from the 400 validation reply
and from any 500 — and leaves the store unchanged. -/
theorem update_missing_id_yields_404 (s : Store) (i : Nat) (b : RequestBody)
    (hval : rejectDays b.NUMBER_OF_DAYS = false)
    (hmiss : ∀ r ∈ s.rows, r.USER_SCHD_ID ≠ i) :
    putSchedule s i b = (HttpResponse.notFound "Schedule not found", s) ∧
    (HttpResponse.notFound "Schedule not found").status = 404 ∧
    (∀ e, HttpResponse.notFound "Schedule not found" ≠ HttpResponse.clientError e) ∧
    (∀ e, HttpResponse.notFound "Schedule not found" ≠ HttpResponse.serverError e) := by
  have hnil : s.rows.filter (fun r => r.USER_SCHD_ID == i) = [] := by
    rw [List.filter_eq_nil_iff]
    intro r hr
    simpa using hmiss r hr
  refine ⟨?_, rfl, fun e => by simp, fun e => by simp⟩
  simp [putSchedule, hval, hnil]

/-- Witness for C6: valid days 5, id 99 absent from the sample store. -/
theorem update_missing_id_yields_404_witness :
    putSchedule sampleStore 99
        ⟨JSVal.vundefined, JSVal.vundefined, JSVal.vnum 5, JSVal.vundefined,
         JSVal.vundefined⟩ =
      (HttpResponse.notFound "Schedule not found", sampleStore) :=
  (update_missing_id_yields_404 sampleStore 99
    ⟨JSVal.vundefined, JSVal.vundefined, JSVal.vnum 5, JSVal.vundefined, JSVal.vundefined⟩
    (by decide) (by decide)).1

/-- C9 counterexample: `null` has a defined numeric coercion (0, below 7)
yet the update validation rejects it with a 400, because the guard tests
`NUMBER_OF_DAYS === null` before the numeric checks; so it is not the
case that any value with a defined coercion below 7 passes. -/
theorem update_null_days_rejected_counterexample :
    JSVal.toNumber JSVal.vnull = some 0 ∧ (0 : Int) < 7 ∧
    putSchedule sampleStore 1
        ⟨JSVal.vundefined, JSVal.vundefined, JSVal.vnull, JSVal.vundefined, JSVal.vundefined⟩ =
      (HttpResponse.clientError "Number of Days must be a valid number and less than 7.",
       sampleStore) :=
  ⟨rfl, by decide, by decide⟩

/-- C9 (amended): non-number update inputs pass the validation through
numeric coercion — the empty string, numeric strings such as `"5"`, and
booleans — and zero and negative numbers are accepted; in general any
value other than `undefined` and `null` whose numeric coercion is defined
and below 7 passes, and the raw value is then handed to the UPDATE
statement. -/
theorem update_coerced_days_pass_validation (s : Store) (i : Nat) (b : RequestBody) (n : Int)
    (h0 : b.NUMBER_OF_DAYS ≠ JSVal.vundefined) (h1 : b.NUMBER_OF_DAYS ≠ JSVal.vnull)
    (h2 : (b.NUMBER_OF_DAYS).toNumber = some n) (h3 : n < 7) :
    rejectDays b.NUMBER_OF_DAYS = false ∧
    putSchedule s i b =
      (if (s.rows.filter (fun r => r.USER_SCHD_ID == i)).length = 0 then
        (HttpResponse.notFound "Schedule not found", s)
       else
        (HttpResponse.okMsg "Schedule updated successfully!",
         ⟨s.rows.map (fun r =>
            if r.USER_SCHD_ID == i then { r with NUMBER_OF_DAYS := b.NUMBER_OF_DAYS } else r),
          s.nextId⟩)) ∧
    rejectDays (JSVal.vstr "") = false ∧
    rejectDays (JSVal.vstr "5") = false ∧
    rejectDays (JSVal.vbool true) = false ∧
    rejectDays (JSVal.vbool false) = false ∧
    rejectDays (JSVal.vnum 0) = false ∧
    rejectDays (JSVal.vnum (-3)) = false := by
  have hrej : rejectDays b.NUMBER_OF_DAYS = false := by
    have h7 : ¬(7 : Int) ≤ n := by omega
    simp [rejectDays, h0, h1, JSVal.geNum, h2, h7]
  exact ⟨hrej, by rw [putSchedule, if_neg (by simp [hrej])], by decide, by decide, by decide,
    by decide, by decide, by decide⟩

/-- Witness for C9 (amended): the string `"5"` passes validation and the
UPDATE stores the raw string in the matching row. -/
theorem update_coerced_days_pass_validation_witness :
    rejectDays (JSVal.vstr "5") = false ∧
    putSchedule sampleStore 1
        ⟨JSVal.vundefined, JSVal.vundefined, JSVal.vstr "5", JSVal.vundefined,
         JSVal.vundefined⟩ =
      (if (sampleStore.rows.filter (fun r => r.USER_SCHD_ID == 1)).length = 0 then
        (HttpResponse.notFound "Schedule not found", sampleStore)
       else
        (HttpResponse.okMsg "Schedule updated successfully!",
         ⟨sampleStore.rows.map (fun r =>
            if r.USER_SCHD_ID == 1 then { r with NUMBER_OF_DAYS := JSVal.vstr "5" } else r),
          sampleStore.nextId⟩)) := by
  have h := update_coerced_days_pass_validation sampleStore 1
    ⟨JSVal.vundefined, JSVal.vundefined, JSVal.vstr "5", JSVal.vundefined, JSVal.vundefined⟩
    5 (by decide) (by decide) (by decide) (by decide)
  exact ⟨h.1, h.2.1⟩

/-- A delete of an id no stored row carries answers 404 and leaves the
store unchanged. -/
theorem deleteSchedule_404_of_no_match (s : Store) (i : Nat)
    (h : ∀ r ∈ s.rows, r.USER_SCHD_ID ≠ i) :
    deleteSchedule s i = (HttpResponse.notFound "Schedule not found", s) := by
  have hnil : s.rows.filter (fun r => r.USER_SCHD_ID == i) = [] := by
    rw [List.filter_eq_nil_iff]
    intro r hr
    simpa using h r hr
  simp [deleteSchedule, hnil]

/-- Whatever the outcome, the store a delete leaves behind holds no row
with the deleted id. -/
theorem deleteSchedule_no_match_after (s : Store) (i : Nat) :
    ∀ r ∈ (deleteSchedule s i).2.rows, r.USER_SCHD_ID ≠ i := by
  unfold deleteSchedule
  by_cases h : (s.rows.filter (fun r => r.USER_SCHD_ID == i)).length = 0
  · rw [if_pos h]
    intro r hr
    have := List.filter_eq_nil_iff.mp (List.length_eq_zero.mp h) r hr
    simpa using this
  · rw [if_neg h]
    intro r hr
    have := List.of_mem_filter hr
    simpa using this

/-- The rows a delete leaves behind, in both branches: the stored rows
with every id-`i` row removed. -/
theorem deleteSchedule_rows (s : Store) (i : Nat) :
    (deleteSchedule s i).2.rows = s.rows.filter (fun r => !(r.USER_SCHD_ID == i)) ∧
    (deleteSchedule s i).2.nextId = s.nextId := by
  unfold deleteSchedule
  by_cases h : (s.rows.filter (fun r => r.USER_SCHD_ID == i)).length = 0
  · rw [if_pos h]
    have hnil := List.filter_eq_nil_iff.mp (List.length_eq_zero.mp h)
    refine ⟨?_, rfl⟩
    rw [eq_comm, List.filter_eq_self]
    intro r hr
    simpa using hnil r hr
  · rw [if_neg h]
    exact ⟨rfl, rfl⟩

/-- C7: deleting an id with no matching row — in particular an id whose
row an earlier delete already removed — answers 404 and removes nothing;
deleting a present id succeeds and the id is absent from every subsequent
listing. -/
theorem delete_semantics (s : Store) (i : Nat) :
    ((∀ r ∈ s.rows, r.USER_SCHD_ID ≠ i) →
      deleteSchedule s i = (HttpResponse.notFound "Schedule not found", s) ∧
      (HttpResponse.notFound "Schedule not found").status = 404) ∧
    ((∃ r ∈ s.rows, r.USER_SCHD_ID = i) →
      (deleteSchedule s i).1 = HttpResponse.okMsg "Schedule deleted successfully!" ∧
      getSchedules (deleteSchedule s i).2 =
        (HttpResponse.listOk ((deleteSchedule s i).2.rows), (deleteSchedule s i).2) ∧
      ∀ r ∈ (deleteSchedule s i).2.rows, r.USER_SCHD_ID ≠ i) ∧
    deleteSchedule (deleteSchedule s i).2 i =
      (HttpResponse.notFound "Schedule not found", (deleteSchedule s i).2) := by
  refine ⟨fun h => ⟨deleteSchedule_404_of_no_match s i h, rfl⟩, fun h => ?_,
    deleteSchedule_404_of_no_match _ i (deleteSchedule_no_match_after s i)⟩
  rcases h with ⟨r, hr, hid⟩
  have hmem : r ∈ s.rows.filter (fun x => x.USER_SCHD_ID == i) :=
    List.mem_filter.mpr ⟨hr, by simpa using hid⟩
  have hlen : (s.rows.filter (fun x => x.USER_SCHD_ID == i)).length ≠ 0 := by
    intro h0
    rw [List.length_eq_zero.mp h0] at hmem
    exact absurd hmem (List.not_mem_nil r)
  refine ⟨?_, rfl, deleteSchedule_no_match_after s i⟩
  rw [deleteSchedule, if_neg hlen]

/-- Witness for C7: the sample record (id 1) is deleted, the second
delete of id 1 answers 404, and a delete of the absent id 99 answers
404 leaving the store unchanged. -/
theorem delete_semantics_witness :
    (deleteSchedule sampleStore 1).1 = HttpResponse.okMsg "Schedule deleted successfully!" ∧
    (∀ r ∈ (deleteSchedule sampleStore 1).2.rows, r.USER_SCHD_ID ≠ 1) ∧
    deleteSchedule (deleteSchedule sampleStore 1).2 1 =
      (HttpResponse.notFound "Schedule not found", (deleteSchedule sampleStore 1).2) ∧
    deleteSchedule sampleStore 99 = (HttpResponse.notFound "Schedule not found", sampleStore) := by
  have h1 := delete_semantics sampleStore 1
  have h99 := delete_semantics sampleStore 99
  have hex : ∃ r ∈ sampleStore.rows, r.USER_SCHD_ID = 1 :=
    ⟨insertedRecord 1 sampleBody, by decide, rfl⟩
  exact ⟨(h1.2.1 hex).1, (h1.2.1 hex).2.2, h1.2.2, (h99.1 (by decide)).1⟩

/-- Store evolution under a trace: starting from any well-formed store,
the rows after running the trace are the initial rows that no operation
of the trace deletes, followed by the trace's created-and-not-deleted
records, in creation order. -/
theorem runOps_rows (ops : List Op) : ∀ s : Store, s.wf →
    (runOps s ops).rows =
      s.rows.filter (fun r => !(deletedLater r.USER_SCHD_ID ops)) ++
        createdNotDeleted s.nextId ops := by
  induction ops with
  | nil =>
    intro s _
    simp [runOps, createdNotDeleted, deletedLater]
  | cons op rest ih =>
    intro s hwf
    cases op with
    | create b =>
      have hstep : runOps s (Op.create b :: rest) = runOps (applyOp s (Op.create b)) rest := rfl
      by_cases hok : bindParamsOk (insertParams b) = true
      · have happ : applyOp s (Op.create b) =
            ⟨s.rows ++ [insertedRecord s.nextId b], s.nextId + 1⟩ := by
          simp [applyOp, postSchedule, hok]
        have hwf' : Store.wf ⟨s.rows ++ [insertedRecord s.nextId b], s.nextId + 1⟩ := by
          intro r hr
          rcases List.mem_append.mp hr with h | h
          · exact Nat.lt_succ_of_lt (hwf r h)
          · rw [List.mem_singleton.mp h]
            exact Nat.lt_succ_self _
        rw [hstep, happ, ih _ hwf']
        show (s.rows ++ [insertedRecord s.nextId b]).filter
            (fun r => !(deletedLater r.USER_SCHD_ID rest)) ++
            createdNotDeleted (s.nextId + 1) rest =
          s.rows.filter (fun r => !(deletedLater r.USER_SCHD_ID rest)) ++
            createdNotDeleted s.nextId (Op.create b :: rest)
        rw [List.filter_append, List.append_assoc]
        congr 1
        rw [List.filter_singleton]
        show (bif !(deletedLater s.nextId rest) then [insertedRecord s.nextId b] else []) ++
            createdNotDeleted (s.nextId + 1) rest =
          createdNotDeleted s.nextId (Op.create b :: rest)
        rw [createdNotDeleted, if_pos hok]
        cases hdl : deletedLater s.nextId rest <;> simp [hdl]
      · have happ : applyOp s (Op.create b) = s := by
          simp [applyOp, postSchedule, hok]
        rw [hstep, happ, ih _ hwf]
        show s.rows.filter (fun r => !(deletedLater r.USER_SCHD_ID rest)) ++
            createdNotDeleted s.nextId rest =
          s.rows.filter (fun r => !(deletedLater r.USER_SCHD_ID rest)) ++
            createdNotDeleted s.nextId (Op.create b :: rest)
        rw [createdNotDeleted, if_neg hok]
    | del i =>
      have hdel := deleteSchedule_rows s i
      have hstep : runOps s (Op.del i :: rest) = runOps (deleteSchedule s i).2 rest := rfl
      have hwf' : ((deleteSchedule s i).2).wf := by
        intro r hr
        rw [hdel.1] at hr
        rw [hdel.2]
        exact hwf r (List.mem_of_mem_filter hr)
      rw [hstep, ih _ hwf', hdel.1, hdel.2]
      show (s.rows.filter (fun r => !(r.USER_SCHD_ID == i))).filter
          (fun r => !(deletedLater r.USER_SCHD_ID rest)) ++
          createdNotDeleted s.nextId rest =
        s.rows.filter (fun r => !(deletedLater r.USER_SCHD_ID (Op.del i :: rest))) ++
          createdNotDeleted s.nextId (Op.del i :: rest)
      rw [List.filter_filter]
      congr 1
      apply List.filter_congr
      intro x _
      show (!(deletedLater x.USER_SCHD_ID rest) && !(x.USER_SCHD_ID == i)) =
        !(x.USER_SCHD_ID == i || deletedLater x.USER_SCHD_ID rest)
      cases x.USER_SCHD_ID == i <;> cases deletedLater x.USER_SCHD_ID rest <;> rfl

/-- C3: after any sequence of create and delete operations on an
initially empty store, the listing returns exactly the records created
and not later deleted, in creation (storage) order, and the listing
leaves the store untouched. -/
theorem listing_returns_created_not_deleted (ops : List Op) :
    getSchedules (runOps store0 ops) =
      (HttpResponse.listOk (createdNotDeleted store0.nextId ops), runOps store0 ops) := by
  have h := runOps_rows ops store0 (by intro r hr; simp [store0] at hr)
  have hrows : (runOps store0 ops).rows = createdNotDeleted store0.nextId ops := by
    simpa [store0] using h
  simp only [getSchedules, hrows]
